import Mathlib

/-!
Verification of `src/app/plot/block_visits.py` from saltastro/salt-statistics-page.

The Python module defines a single class `BlockVisitPlots` whose constructor
fetches a dataframe of daily block-visit counts for a fixed date range around a
given date, and whose four view methods derive plot values from that dataframe
and hand them to plotting primitives (`DialPlot`, `daily_bar_plot`,
`monthly_bar_plot`).

Embedding choices:
* A calendar date is an integer day number (`Date := Int`); subtracting a
  `datetime.timedelta(days = n)` is integer subtraction.
* A dataframe row maps a column name to an integer value; a dataframe is a list
  of rows.  Keyword arguments are an opaque association list.
* The database query `DateRangeQueries(start, end, db.engine).block_visits()`
  is an abstract function `Date → Date → DataFrame` passed to the constructor;
  every call to it is recorded in a query trace, so the methods' effect on the
  database is visible in their types.
* Each method takes the object (`self`) and returns the constructed plot (or
  the argument record it passes to the external bar-plot helper), the object
  after the call, and the list of database queries the call issued.  The
  Python bodies never assign to `self` and never touch the database, which the
  embedding mirrors.
* `DialPlot` and the bar-plot helpers are external plotting primitives; they
  are modelled by records of the arguments the class passes to them.
* The helper functions from `app/plot/util.py` are not part of the provided
  source.  The simple ones whose behaviour the claims rely on
  (`value_last_night`, `value_last_week`, `day_range`) are modelled from the
  spec and the method docstrings; `month_range`, `day_running_average` and
  `month_running_average` are kept abstract as function parameters.
-/

/-- A calendar date, as an integer day number. -/
abbrev Date := Int

/-- A dataframe row: a map from column name to integer value. -/
abbrev Row := String → Int

/-- A dataframe: a list of rows. -/
abbrev DataFrame := List Row

/-- Opaque keyword arguments (`**kwargs`), an association list. -/
abbrev Kwargs := List (String × String)

/-- One database query issued through `DateRangeQueries(start, end, db.engine)`:
the start and end dates of the requested range (`end` is a Lean keyword, hence
`stop`). -/
structure DateRangeQueriesCall where
  start : Date
  stop : Date
deriving DecidableEq, Repr

/-- The trace of database queries issued by a call. -/
abbrev QueryTrace := List DateRangeQueriesCall

/-- Modelled from the spec: `value_last_night` from `app/plot/util.py` (not in
the provided source).  Per the `last_night_plot` docstring it yields "the
number of block visits for the date preceding `self.date`": the sum of the
`value_column` entries of the rows whose `date_column` is the day before
`date`. -/
def value_last_night (df : DataFrame) (date : Date)
    (date_column value_column : String) : Int :=
  (df.filter (fun r => decide (r date_column = date - 1))).foldl
    (fun acc r => acc + r value_column) 0

/-- Modelled from the spec: `value_last_week` from `app/plot/util.py` (not in
the provided source).  Per the `week_to_date_plot` docstring it yields "the
number of block visits in the seven days leading up to but excluding
`self.date`": the sum of the `value_column` entries of the rows whose
`date_column` lies in `[date - 7, date - 1]`. -/
def value_last_week (df : DataFrame) (date : Date)
    (date_column value_column : String) : Int :=
  (df.filter (fun r =>
      decide (date - 7 ≤ r date_column) && decide (r date_column < date))).foldl
    (fun acc r => acc + r value_column) 0

/-- Modelled from the spec: `day_range` from `app/plot/util.py` (not in the
provided source).  Per the `daily_plot` docstring the window covers "the `days`
days leading to but excluding `self.date`", so it runs from `date - days` up to
the exclusive end `date`. -/
def day_range (date : Date) (days : Int) : Date × Date :=
  (date - days, date)

/-- The bokeh `Range1d(start=..., end=...)` y-axis range (`end` is a Lean
keyword, hence `stop`). -/
structure Range1d where
  start : Int
  stop : Int
deriving DecidableEq, Repr

/-- The external `DialPlot` plotting primitive, modelled by the arguments the
class passes to its constructor. -/
structure DialPlot where
  values : List Int
  label_values : List Int
  dial_color_func : Int → String
  display_values : List String
  kwargs : Kwargs

/-- A trend function attached to a bar plot: it maps the dataframe to the
overlay series. -/
abbrev TrendFunc := DataFrame → DataFrame

/-- The arguments `daily_plot` passes to the external `daily_bar_plot`
helper. -/
structure DailyBarCall where
  df : DataFrame
  start_date : Date
  end_date : Date
  date_column : String
  y_column : String
  y_range : Range1d
  trend_func : TrendFunc
  kwargs : Kwargs

/-- The arguments `monthly_plot` passes to the external `monthly_bar_plot`
helper. -/
structure MonthlyBarCall where
  df : DataFrame
  start_date : Date
  end_date : Date
  date_column : String
  month_column : String
  y_column : String
  y_range : Range1d
  trend_func : TrendFunc
  kwargs : Kwargs

/-- The state of a `BlockVisitPlots` object: the fields set in `__init__`. -/
structure BlockVisitPlots where
  date : Date
  kwargs : Kwargs
  df : DataFrame

namespace BlockVisitPlots

/-- `BlockVisitPlots.__init__(date, **kwargs)`: stores the date and keyword
arguments and fetches the block-visit dataframe for the range from 300 days
before to 150 days after `date`.  `block_visits` is the database query
`DateRangeQueries(start, end, db.engine).block_visits()`; the trace records
each query issued. -/
def init (date : Date) (kwargs : Kwargs)
    (block_visits : Date → Date → DataFrame) :
    BlockVisitPlots × QueryTrace :=
  let start := date - 300
  let stop := date + 150
  ({ date := date, kwargs := kwargs, df := block_visits start stop },
   [⟨start, stop⟩])

/-- `BlockVisitPlots.last_night_plot`: a dial plot of last night's block-visit
count, labelled `range(0, 13)`, displaying `str(block_visits)`. -/
def last_night_plot (self : BlockVisitPlots) :
    DialPlot × BlockVisitPlots × QueryTrace :=
  let block_visits :=
    value_last_night self.df self.date "Date" "BlockCount"
  ({ values := [block_visits],
     label_values := (List.range 13).map Int.ofNat,
     dial_color_func := fun _ => "#7f7f7f",
     display_values := [toString block_visits],
     kwargs := self.kwargs },
   self, [])

/-- `BlockVisitPlots.week_to_date_plot`: a dial plot of the block-visit count
for the last seven days, labelled `range(0, 71, 10)`, displaying
`str(block_visits)`. -/
def week_to_date_plot (self : BlockVisitPlots) :
    DialPlot × BlockVisitPlots × QueryTrace :=
  let block_visits :=
    value_last_week self.df self.date "Date" "BlockCount"
  ({ values := [block_visits],
     label_values := (List.range 8).map (fun i => 10 * Int.ofNat i),
     dial_color_func := fun _ => "#7f7f7f",
     display_values := [toString block_visits],
     kwargs := self.kwargs },
   self, [])

/-- `BlockVisitPlots.daily_plot(days)`: slices the window `day_range(self.date,
days)` and forwards it to `daily_bar_plot` with columns `Date`/`BlockCount`, a
fixed `Range1d(0, 30)` y-range, and
`functools.partial(day_running_average, ignore_missing_values=False)` as trend
function.  `day_running_average` (from `app/plot/util.py`, not in the provided
source) is abstract; its first argument is `ignore_missing_values`. -/
def daily_plot (day_running_average : Bool → TrendFunc)
    (self : BlockVisitPlots) (days : Int) :
    DailyBarCall × BlockVisitPlots × QueryTrace :=
  let start_date := (day_range self.date days).1
  let end_date := (day_range self.date days).2
  let trend_func := day_running_average false
  ({ df := self.df,
     start_date := start_date,
     end_date := end_date,
     date_column := "Date",
     y_column := "BlockCount",
     y_range := ⟨0, 30⟩,
     trend_func := trend_func,
     kwargs := self.kwargs },
   self, [])

/-- `BlockVisitPlots.monthly_plot(months)`: slices the window
`month_range(self.date, months)` and forwards it to `monthly_bar_plot` with
columns `Date`/`Month`/`BlockCount`, a fixed `Range1d(0, 300)` y-range, and
`functools.partial(month_running_average, ignore_missing_values=False)` as
trend function.  `month_range` and `month_running_average` (from
`app/plot/util.py`, not in the provided source) are abstract; the first
argument of `month_running_average` is `ignore_missing_values`. -/
def monthly_plot (month_range : Date → Int → Date × Date)
    (month_running_average : Bool → TrendFunc)
    (self : BlockVisitPlots) (months : Int) :
    MonthlyBarCall × BlockVisitPlots × QueryTrace :=
  let start_date := (month_range self.date months).1
  let end_date := (month_range self.date months).2
  let trend_func := month_running_average false
  ({ df := self.df,
     start_date := start_date,
     end_date := end_date,
     date_column := "Date",
     month_column := "Month",
     y_column := "BlockCount",
     y_range := ⟨0, 300⟩,
     trend_func := trend_func,
     kwargs := self.kwargs },
   self, [])

end BlockVisitPlots

/-- A requested window `w` lies partly outside the fetched window `f` when it
starts before `f` starts or ends after `f` ends. -/
def outside_fetched (w f : Date × Date) : Prop :=
  w.1 < f.1 ∨ f.2 < w.2

instance (w f : Date × Date) : Decidable (outside_fetched w f) := by
  unfold outside_fetched; infer_instance

/-- Sample database query used to instantiate quantified theorems. -/
def sampleQuery : Date → Date → DataFrame := fun _ _ => []

/-- Sample running-average collaborator used to instantiate quantified
theorems. -/
def sampleTrend : Bool → TrendFunc := fun _ df => df

/-- Sample `month_range` collaborator used to instantiate quantified theorems:
it always answers the window from day `-302` to day `0`. -/
def sampleMonthRange : Date → Int → Date × Date := fun _ _ => (-302, 0)

/-- Claim C1: for every date, constructing `BlockVisitPlots(date, **kwargs)`
queries the block-visit dataframe exactly once — the trace of the constructor
is one `DateRangeQueries(...).block_visits()` call, whose result is stored as
`self.df` — and none of the four view methods issues a further database query:
each method's query trace is empty, and each takes only the object (holding
the stored dataframe), never the database. -/
theorem blockVisitPlots_queries_once
    (date : Date) (kwargs : Kwargs) (block_visits : Date → Date → DataFrame)
    (self : BlockVisitPlots) (dra mra : Bool → TrendFunc)
    (month_range : Date → Int → Date × Date) (days months : Int) :
    (BlockVisitPlots.init date kwargs block_visits).2.length = 1 ∧
    (BlockVisitPlots.init date kwargs block_visits).1.df =
      block_visits (date - 300) (date + 150) ∧
    (self.last_night_plot).2.2 = [] ∧
    (self.week_to_date_plot).2.2 = [] ∧
    (self.daily_plot dra days).2.2 = [] ∧
    (self.monthly_plot month_range mra months).2.2 = [] :=
  ⟨rfl, rfl, rfl, rfl, rfl, rfl⟩

/-- Claim C2: each of the four view methods is read-only on the object's
state: the object returned by the call equals the object before the call, so
`self.date`, `self.kwargs` and `self.df` are all unchanged. -/
theorem blockVisitPlots_methods_read_only
    (self : BlockVisitPlots) (dra mra : Bool → TrendFunc)
    (month_range : Date → Int → Date × Date) (days months : Int) :
    (self.last_night_plot).2.1 = self ∧
    (self.week_to_date_plot).2.1 = self ∧
    (self.daily_plot dra days).2.1 = self ∧
    (self.monthly_plot month_range mra months).2.1 = self :=
  ⟨rfl, rfl, rfl, rfl⟩

/-- Claim C3: `last_night_plot` returns a `DialPlot` whose value is the
single-night count `value_last_night(self.df, self.date, 'Date',
'BlockCount')` and whose displayed value is the decimal string of that same
count. -/
theorem last_night_plot_value (self : BlockVisitPlots) :
    (self.last_night_plot).1.values =
      [value_last_night self.df self.date "Date" "BlockCount"] ∧
    (self.last_night_plot).1.display_values =
      [toString (value_last_night self.df self.date "Date" "BlockCount")] :=
  ⟨rfl, rfl⟩

/-- Claim C4: `week_to_date_plot` returns a `DialPlot` whose value is the
weekly sum `value_last_week(self.df, self.date, 'Date', 'BlockCount')` — the
count over the seven days leading up to but excluding `self.date`, per the
spec-modelled `value_last_week` — and whose displayed value is the decimal
string of that sum. -/
theorem week_to_date_plot_value (self : BlockVisitPlots) :
    (self.week_to_date_plot).1.values =
      [value_last_week self.df self.date "Date" "BlockCount"] ∧
    (self.week_to_date_plot).1.display_values =
      [toString (value_last_week self.df self.date "Date" "BlockCount")] :=
  ⟨rfl, rfl⟩

/-- Claim C5: for every integer `days`, `daily_plot(days)` forwards to
`daily_bar_plot` exactly the window `day_range(self.date, days)` together with
columns `Date` and `BlockCount`: the full argument record of the call is
determined as stated, so no other window is computed and no other column is
used. -/
theorem daily_plot_forwards_window
    (self : BlockVisitPlots) (dra : Bool → TrendFunc) (days : Int) :
    (self.daily_plot dra days).1 =
      { df := self.df,
        start_date := (day_range self.date days).1,
        end_date := (day_range self.date days).2,
        date_column := "Date",
        y_column := "BlockCount",
        y_range := ⟨0, 30⟩,
        trend_func := dra false,
        kwargs := self.kwargs } :=
  rfl

/-- Claim C6: the bar-plot methods attach a running-average trend overlay:
`daily_plot` passes `day_running_average` and `monthly_plot` passes
`month_running_average` as the bar plot's `trend_func`, each partially applied
with `ignore_missing_values = False`. -/
theorem bar_plots_trend_func
    (self : BlockVisitPlots) (dra mra : Bool → TrendFunc)
    (month_range : Date → Int → Date × Date) (days months : Int) :
    (self.daily_plot dra days).1.trend_func = dra false ∧
    (self.monthly_plot month_range mra months).1.trend_func = mra false :=
  ⟨rfl, rfl⟩

/-- Claim C7: for every integer `months`, `monthly_plot(months)` forwards to
`monthly_bar_plot` exactly the window `month_range(self.date, months)` with
`date_column = 'Date'`, `month_column = 'Month'` and `y_column =
'BlockCount'`: the full argument record of the call is determined as
stated. -/
theorem monthly_plot_forwards_window
    (self : BlockVisitPlots) (mra : Bool → TrendFunc)
    (month_range : Date → Int → Date × Date) (months : Int) :
    (self.monthly_plot month_range mra months).1 =
      { df := self.df,
        start_date := (month_range self.date months).1,
        end_date := (month_range self.date months).2,
        date_column := "Date",
        month_column := "Month",
        y_column := "BlockCount",
        y_range := ⟨0, 300⟩,
        trend_func := mra false,
        kwargs := self.kwargs } :=
  rfl

/-- Claim C8: both dial-plot methods pass exactly one value and exactly one
display value to `DialPlot`: the `values` and `display_values` lists each have
length 1. -/
theorem dial_plots_single_scalar (self : BlockVisitPlots) :
    (self.last_night_plot).1.values.length = 1 ∧
    (self.last_night_plot).1.display_values.length = 1 ∧
    (self.week_to_date_plot).1.values.length = 1 ∧
    (self.week_to_date_plot).1.display_values.length = 1 :=
  ⟨rfl, rfl, rfl, rfl⟩

/-- Claim C9: the constructor queries exactly the range from `date - 300` to
`date + 150`; consequently `daily_plot(days)` with `days > 300`, and
`monthly_plot(months)` whose month window starts before `date - 300`, each
forward a window lying partly outside the fetched range. -/
theorem fetched_range_fixed_and_windows_can_escape
    (date : Date) (kwargs : Kwargs) (block_visits : Date → Date → DataFrame)
    (dra mra : Bool → TrendFunc) (month_range : Date → Int → Date × Date)
    (days months : Int) (hdays : 300 < days)
    (hmonths : (month_range date months).1 < date - 300) :
    (BlockVisitPlots.init date kwargs block_visits).2 =
        [⟨date - 300, date + 150⟩] ∧
    outside_fetched
      (((BlockVisitPlots.init date kwargs block_visits).1.daily_plot
          dra days).1.start_date,
       ((BlockVisitPlots.init date kwargs block_visits).1.daily_plot
          dra days).1.end_date)
      (date - 300, date + 150) ∧
    outside_fetched
      (((BlockVisitPlots.init date kwargs block_visits).1.monthly_plot
          month_range mra months).1.start_date,
       ((BlockVisitPlots.init date kwargs block_visits).1.monthly_plot
          month_range mra months).1.end_date)
      (date - 300, date + 150) := by
  refine ⟨rfl, Or.inl ?_, Or.inl ?_⟩
  · show date - days < date - 300
    exact sub_lt_sub_left hdays date
  · exact hmonths

/-- Witness for claim C9 at `date = 0`, `days = 301`, `months = 1`, with the
sample collaborators: both hypotheses hold and the conclusion follows. -/
theorem fetched_range_fixed_and_windows_can_escape_witness :
    ((300 : Int) < 301 ∧ (sampleMonthRange 0 1).1 < (0 : Date) - 300) ∧
    ((BlockVisitPlots.init 0 [] sampleQuery).2 = [⟨-300, 150⟩] ∧
     outside_fetched
       (((BlockVisitPlots.init 0 [] sampleQuery).1.daily_plot
           sampleTrend 301).1.start_date,
        ((BlockVisitPlots.init 0 [] sampleQuery).1.daily_plot
           sampleTrend 301).1.end_date)
       ((0 : Date) - 300, (0 : Date) + 150) ∧
     outside_fetched
       (((BlockVisitPlots.init 0 [] sampleQuery).1.monthly_plot
           sampleMonthRange sampleTrend 1).1.start_date,
        ((BlockVisitPlots.init 0 [] sampleQuery).1.monthly_plot
           sampleMonthRange sampleTrend 1).1.end_date)
       ((0 : Date) - 300, (0 : Date) + 150)) := by
  refine ⟨⟨by decide, by decide⟩, ?_⟩
  have h := fetched_range_fixed_and_windows_can_escape 0 [] sampleQuery
    sampleTrend sampleTrend sampleMonthRange 301 1 (by decide) (by decide)
  simpa using h

/-- Claim C10: all plot scales are constants independent of the data:
`last_night_plot` labels its dial with `0..12`, `week_to_date_plot` with
`0, 10, ..., 70`, `daily_plot` fixes the y-range to `Range1d(0, 30)` and
`monthly_plot` to `Range1d(0, 300)`, for every dataframe and date. -/
theorem plot_scales_constant (self : BlockVisitPlots)
    (dra mra : Bool → TrendFunc) (month_range : Date → Int → Date × Date)
    (days months : Int) :
    (self.last_night_plot).1.label_values =
      [0, 1, 2, 3, 4, 5, 6, 7, 8, 9, 10, 11, 12] ∧
    (self.week_to_date_plot).1.label_values =
      [0, 10, 20, 30, 40, 50, 60, 70] ∧
    (self.daily_plot dra days).1.y_range = ⟨0, 30⟩ ∧
    (self.monthly_plot month_range mra months).1.y_range = ⟨0, 300⟩ := by
  refine ⟨?_, ?_, rfl, rfl⟩
  · show (List.range 13).map Int.ofNat =
      [0, 1, 2, 3, 4, 5, 6, 7, 8, 9, 10, 11, 12]
    decide
  · show (List.range 8).map (fun i => 10 * Int.ofNat i) =
      [0, 10, 20, 30, 40, 50, 60, 70]
    decide
